import Mathlib

/-!
Verification of the EnerPulse Analytics backend (src/backend/main.py).

The development shallowly embeds the numeric core of the backend:

* `generateTelemetry` embeds `generate_telemetry_data` (telemetry streaming);
  the wall-clock hour and every `random.uniform` / `random.random` draw of the
  Python code become explicit parameters, and Python `round(x, d)` becomes
  `roundQ d` over `ℚ` (exact rational arithmetic in place of IEEE doubles).
* the mock-mode inference path of `run_inference` is embedded over `ℝ`
  (`mean`, `popStd`, `slopeOf`, `classifyAnomaly`, `runInference`), with the
  single `np.random.uniform(-0.03, 0.03)` draw an explicit `noise` parameter.
* `predictBatchLoop` / `predictBatchEndpoint` embed the `predict_batch`
  endpoint loop; a per-item runtime exception caught by its `except` branch is
  modelled by the item's inference function returning `none`.
* `broadcastSurvivors` embeds `ConnectionManager.broadcast`'s effect on the
  registry of active connections; the success of each `send_json` is an
  explicit `push : σ → Bool` oracle, evaluated once per subscriber.
-/

namespace EnerPulse

/-- Python `round(x, d)` on exact rationals: round `x * 10^d` to the nearest
integer and scale back.  (Ties never occur at the concrete inputs used below,
so the round-half-to-even versus round-half-up distinction is immaterial.) -/
def roundQ (d : ℕ) (x : ℚ) : ℚ := ((round (x * 10 ^ d) : ℤ) : ℚ) / 10 ^ d

/-- The `metrics` object of a telemetry sample (generate_telemetry_data). -/
structure TelemetryMetrics where
  current_usage : ℚ
  solar_output : ℚ
  grid_dependency : ℚ
  temperature : ℚ
  humidity : ℚ
  uv_index : ℚ
  deriving DecidableEq, Repr

/-- The `status` object of a telemetry sample. -/
structure TelemetrySampleStatus where
  anomaly_detected : Bool
  grid_status : String
  solar_status : String
  deriving DecidableEq, Repr

/-- One generated telemetry sample (timestamp omitted; `sensor_id` is the
constant `"main-facility"` in the source). -/
structure TelemetrySample where
  metrics : TelemetryMetrics
  status : TelemetrySampleStatus
  deriving DecidableEq, Repr

/-- Embedding of `generate_telemetry_data` (src/backend/main.py:416-472).
`hour` is `datetime.utcnow().hour`; `noise`, `solarRand`, `tempNoise`,
`humidRand`, `uvRand` are the successive `random.uniform` draws, and
`anomaly` is the outcome of `random.random() < 0.05`.  The second binding of
`current_usage` mirrors the in-place mutation performed by the anomaly branch
after `grid_dependency` has already been computed. -/
def generateTelemetry (hour : ℕ) (noise solarRand tempNoise humidRand uvRand : ℚ)
    (anomaly : Bool) : TelemetrySample :=
  let base_load : ℚ := 150
  let multiplier : ℚ :=
    if 9 ≤ hour ∧ hour ≤ 17 then 1.5
    else if 18 ≤ hour ∧ hour ≤ 21 then 1.2
    else if hour ≤ 5 then 0.6
    else 1
  let current_usage := roundQ 2 (base_load * multiplier + noise)
  let solar_multiplier : ℚ := max 0 (1 - |(hour : ℚ) - 12| / 12)
  let solar_output := roundQ 2 (solarRand * solar_multiplier)
  let grid_dependency := roundQ 2 (max 0 (current_usage - solar_output))
  let temperature := roundQ 1 (18 + ((hour : ℚ) - 12) * 0.3 + tempNoise)
  let current_usage := if anomaly then roundQ 2 (current_usage * 1.5) else current_usage
  { metrics :=
      { current_usage := current_usage
        solar_output := solar_output
        grid_dependency := grid_dependency
        temperature := temperature
        humidity := roundQ 1 humidRand
        uv_index := roundQ 1 (max 0 (solar_multiplier * uvRand)) }
    status :=
      { anomaly_detected := anomaly
        grid_status := if grid_dependency < 200 then "stable" else "high-load"
        solar_status := if solar_output > 10 then "generating" else "inactive" } }

/-- Rounding to `d` decimals fixes every rational that is already an integer
multiple of `10 ^ (-d)`. -/
theorem roundQ_int_div (d : ℕ) (k : ℤ) :
    roundQ d ((k : ℚ) / 10 ^ d) = (k : ℚ) / 10 ^ d := by
  have h10 : ((10 : ℚ) ^ d) ≠ 0 := by positivity
  unfold roundQ
  rw [div_mul_cancel₀ _ h10, round_intCast]

/-- Every output of `roundQ d` is an integer multiple of `10 ^ (-d)`. -/
theorem roundQ_exists_int (d : ℕ) (x : ℚ) :
    ∃ k : ℤ, roundQ d x = (k : ℚ) / 10 ^ d :=
  ⟨round (x * 10 ^ d), rfl⟩

/-- `roundQ 2` fixes `max 0 (a/100 - b/100)` for integers `a`, `b`: a
difference of two already-rounded quantities needs no further rounding. -/
theorem roundQ_two_max_sub (a b : ℤ) :
    roundQ 2 (max 0 ((a : ℚ) / 10 ^ 2 - (b : ℚ) / 10 ^ 2))
      = max 0 ((a : ℚ) / 10 ^ 2 - (b : ℚ) / 10 ^ 2) := by
  have h : (a : ℚ) / 10 ^ 2 - (b : ℚ) / 10 ^ 2 = ((a - b : ℤ) : ℚ) / 10 ^ 2 := by
    push_cast; ring
  rw [h]
  rcases le_total (0 : ℚ) (((a - b : ℤ) : ℚ) / 10 ^ 2) with hle | hle
  · rw [max_eq_right hle, roundQ_int_div]
  · rw [max_eq_left hle]
    simpa using roundQ_int_div 2 0

/-- C1 counterexample: at hour 0 with zero load noise, any solar draw, and the
5%-probability anomaly branch firing, the returned sample has
`current_usage = 135`, `solar_output = 0` and `grid_dependency = 90`, so
`grid_dependency ≠ max 0 (current_usage - solar_output)` on the returned
metrics: the code computes grid dependency from the pre-anomaly usage. -/
theorem grid_dependency_anomaly_cex :
    (generateTelemetry 0 0 100 0 50 5 true).metrics.grid_dependency
      ≠ max 0 ((generateTelemetry 0 0 100 0 50 5 true).metrics.current_usage
          - (generateTelemetry 0 0 100 0 50 5 true).metrics.solar_output) := by
  norm_num [generateTelemetry, roundQ, round_eq]

/-- C1 (amended): in every sample in which the anomaly branch did not fire,
`grid_dependency = max 0 (current_usage - solar_output)` holds exactly on the
returned metrics; when the branch did fire, the sample's `grid_dependency`
equals that of the corresponding no-anomaly sample, i.e. it is computed from
the pre-multiplication `current_usage`. -/
theorem grid_dependency_exact (hour : ℕ) (noise solarRand tempNoise humidRand uvRand : ℚ) :
    (generateTelemetry hour noise solarRand tempNoise humidRand uvRand false).metrics.grid_dependency
      = max 0
        ((generateTelemetry hour noise solarRand tempNoise humidRand uvRand false).metrics.current_usage
          - (generateTelemetry hour noise solarRand tempNoise humidRand uvRand false).metrics.solar_output)
    ∧ (generateTelemetry hour noise solarRand tempNoise humidRand uvRand true).metrics.grid_dependency
      = (generateTelemetry hour noise solarRand tempNoise humidRand uvRand false).metrics.grid_dependency := by
  constructor
  · show roundQ 2 (max 0 (roundQ 2 _ - roundQ 2 _)) = max 0 (roundQ 2 _ - roundQ 2 _)
    obtain ⟨a, ha⟩ := roundQ_exists_int 2 (150 *
      (if 9 ≤ hour ∧ hour ≤ 17 then (1.5 : ℚ)
        else if 18 ≤ hour ∧ hour ≤ 21 then 1.2
        else if hour ≤ 5 then 0.6 else 1) + noise)
    obtain ⟨b, hb⟩ := roundQ_exists_int 2 (solarRand * max 0 (1 - |(hour : ℚ) - 12| / 12))
    rw [ha, hb]
    exact roundQ_two_max_sub a b
  · rfl

/-! Mock-mode inference path of `run_inference` (src/backend/main.py:229-295),
embedded over `ℝ`.  `USE_REAL_MODEL` is `False` in the source, so only the
demo-mode branch is embedded.  The single `np.random.uniform(-0.03, 0.03)`
draw becomes the explicit `noise` parameter. -/

noncomputable section

/-- Arithmetic mean, `np.mean` (the empty list gives `0 / 0 = 0`). -/
def mean (l : List ℝ) : ℝ := l.sum / l.length

/-- Population standard deviation, `np.std`. -/
def popStd (l : List ℝ) : ℝ :=
  Real.sqrt ((l.map (fun x => (x - mean l) ^ 2)).sum / l.length)

/-- Python slice `l[-n:]`: the last `n` elements (the whole list when it is
shorter than `n`). -/
def lastN (n : ℕ) (l : List ℝ) : List ℝ := l.drop (l.length - n)

/-- Least-squares linear-regression slope of `ys` against indices `0..n-1`:
the degree-1 coefficient of `np.polyfit(np.arange(len(ys)), ys, 1)`. -/
def slopeOf (ys : List ℝ) : ℝ :=
  let n : ℝ := ys.length
  let xs : List ℝ := (List.range ys.length).map (fun i => (i : ℝ))
  let sx := xs.sum
  let sy := ys.sum
  let sxy := (List.zipWith (fun x y => x * y) xs ys).sum
  let sxx := (xs.map (fun x => x ^ 2)).sum
  (n * sxy - sx * sy) / (n * sxx - sx ^ 2)

/-- Anomaly threshold of `run_inference` (line 276): historical mean plus two
population standard deviations of the full window. -/
def thresholdOf (usage_data : List ℝ) : ℝ := mean usage_data + 2 * popStd usage_data

/-- The mock forecast value before rounding (lines 257-269): trend-adjusted
recent average with multiplicative noise, floored at 0. -/
def forecastVal (usage_data : List ℝ) (noise : ℝ) : ℝ :=
  let recent_window := lastN 6 usage_data
  let recent_avg := mean recent_window
  let slope := slopeOf recent_window
  let trend_factor := 1 + (slope / max recent_avg 1) * 0.5
  max 0 (recent_avg * trend_factor * (1 + noise))

/-- The mock confidence value before rounding (lines 272-273): 1 minus the
coefficient of variation of the recent window, clamped to `[0.5, 0.98]`. -/
def confidenceVal (usage_data : List ℝ) : ℝ :=
  let recent_window := lastN 6 usage_data
  let coefficient_of_variation := popStd recent_window / max (mean recent_window) 0.01
  max 0.5 (min 0.98 (1 - coefficient_of_variation))

/-- Anomaly classification of `run_inference` (lines 275-288): flag a forecast
strictly above the threshold and grade its relative deviation.  (Lean's
`x / 0 = 0` convention makes the `deviation` expression total; under the
endpoint's validation the divisor is never 0 when the branch is reached, see
`zero_threshold_unreachable_division`.) -/
def classifyAnomaly (usage_data : List ℝ) (predicted_val : ℝ) : Bool × Option String :=
  let threshold := thresholdOf usage_data
  let is_anomaly : Bool := decide (predicted_val > threshold)
  let severity : Option String :=
    if is_anomaly then
      let deviation := (predicted_val - threshold) / threshold
      some (if deviation < 0.1 then "low" else if deviation < 0.25 then "medium" else "high")
    else none
  (is_anomaly, severity)

/-- Python `round(x, d)` over `ℝ`. -/
def roundR (d : ℕ) (x : ℝ) : ℝ := ((round (x * 10 ^ d) : ℤ) : ℝ) / 10 ^ d

/-- The dict returned by `run_inference` (lines 290-295). -/
structure InferResult where
  predicted_usage : ℝ
  anomaly_detected : Bool
  anomaly_severity : Option String
  confidence_score : ℝ

/-- Embedding of the mock path of `run_inference` (src/backend/main.py:229-295). -/
def runInference (usage_data : List ℝ) (noise : ℝ) : InferResult :=
  let predicted_val := forecastVal usage_data noise
  { predicted_usage := roundR 2 predicted_val
    anomaly_detected := (classifyAnomaly usage_data predicted_val).1
    anomaly_severity := (classifyAnomaly usage_data predicted_val).2
    confidence_score := roundR 3 (confidenceVal usage_data) }

/-- The boundary validation of `PredictionRequest` (lines 51-69): at least
`MIN_DATA_POINTS = 24` readings, none negative. -/
def ValidWindow (l : List ℝ) : Prop := 24 ≤ l.length ∧ ∀ x ∈ l, 0 ≤ x

end

/-! Evaluation helpers for constant windows. -/

theorem lastN_replicate (a : ℝ) : lastN 6 (List.replicate 24 a) = List.replicate 6 a := by
  simp [lastN, List.drop_replicate]

theorem mean_replicate {n : ℕ} (hn : n ≠ 0) (a : ℝ) : mean (List.replicate n a) = a := by
  have h : (n : ℝ) ≠ 0 := Nat.cast_ne_zero.mpr hn
  simp [mean, List.sum_replicate, nsmul_eq_mul]
  field_simp

theorem popStd_replicate (n : ℕ) (a : ℝ) : popStd (List.replicate n a) = 0 := by
  rcases n with _ | m
  · simp [popStd, mean]
  · have h := mean_replicate (n := m + 1) (by simp) a
    simp [popStd, List.map_replicate, h, List.sum_replicate]

theorem slopeOf_replicate_six (a : ℝ) : slopeOf (List.replicate 6 a) = 0 := by
  simp [slopeOf, List.range_succ, List.replicate]
  ring_nf
  exact Or.inl trivial

theorem thresholdOf_replicate {n : ℕ} (hn : n ≠ 0) (a : ℝ) :
    thresholdOf (List.replicate n a) = a := by
  simp [thresholdOf, mean_replicate hn, popStd_replicate]

theorem forecastVal_replicate (a noise : ℝ) :
    forecastVal (List.replicate 24 a) noise = max 0 (a * (1 + noise)) := by
  simp only [forecastVal, lastN_replicate, mean_replicate (by norm_num : (6 : ℕ) ≠ 0),
    slopeOf_replicate_six]
  norm_num

theorem confidenceVal_replicate (a : ℝ) :
    confidenceVal (List.replicate 24 a) = 0.98 := by
  simp only [confidenceVal, lastN_replicate, popStd_replicate]
  norm_num

theorem roundR_int_div (d : ℕ) (k : ℤ) :
    roundR d ((k : ℝ) / 10 ^ d) = (k : ℝ) / 10 ^ d := by
  have h10 : ((10 : ℝ) ^ d) ≠ 0 := by positivity
  unfold roundR
  rw [div_mul_cancel₀ _ h10, round_intCast]

/-! General lemmas about the window statistics. -/

theorem sum_zero_all_zero {l : List ℝ} (h : ∀ x ∈ l, 0 ≤ x) (hs : l.sum = 0) :
    ∀ x ∈ l, x = 0 := by
  induction l with
  | nil => simp
  | cons a t ih =>
    have hat : 0 ≤ a := h a (by simp)
    have hts : 0 ≤ t.sum := List.sum_nonneg fun x hx => h x (by simp [hx])
    have hsum : a + t.sum = 0 := by simpa using hs
    have ha0 : a = 0 := by linarith
    have ht0 : t.sum = 0 := by linarith
    intro x hx
    rcases List.mem_cons.mp hx with rfl | hxt
    · exact ha0
    · exact ih (fun y hy => h y (by simp [hy])) ht0 x hxt

theorem mean_nonneg {l : List ℝ} (h : ∀ x ∈ l, 0 ≤ x) : 0 ≤ mean l :=
  div_nonneg (List.sum_nonneg h) (Nat.cast_nonneg _)

theorem popStd_nonneg (l : List ℝ) : 0 ≤ popStd l := Real.sqrt_nonneg _

/-- With a nonempty all-nonnegative window, a zero threshold forces every
window value to be 0 (the mean and the standard deviation are both
nonnegative, so both vanish). -/
theorem all_zero_of_threshold_zero {l : List ℝ} (hlen : l.length ≠ 0)
    (hpos : ∀ x ∈ l, 0 ≤ x) (ht : thresholdOf l = 0) : ∀ x ∈ l, x = 0 := by
  have hm : 0 ≤ mean l := mean_nonneg hpos
  have hstd : 0 ≤ popStd l := popStd_nonneg l
  have hmean0 : mean l = 0 := by
    unfold thresholdOf at ht
    linarith
  have hsum : l.sum = 0 := by
    have hl : (l.length : ℝ) ≠ 0 := Nat.cast_ne_zero.mpr hlen
    have := hmean0
    unfold mean at this
    field_simp at this
    exact this
  exact sum_zero_all_zero hpos hsum

/-- On an all-zero window the mock forecast is exactly 0 for every noise
draw: the recent average vanishes, so the product under `max 0 _` is 0. -/
theorem forecastVal_zero_of_all_zero {l : List ℝ} (h : ∀ x ∈ l, x = 0) (noise : ℝ) :
    forecastVal l noise = 0 := by
  have hrec : ∀ x ∈ lastN 6 l, x = 0 := fun x hx => h x (List.drop_subset _ l hx)
  have hsum : (lastN 6 l).sum = 0 := List.sum_eq_zero hrec
  have hmean : mean (lastN 6 l) = 0 := by simp [mean, hsum]
  simp [forecastVal, hmean]

/-- C8: for every valid window whose anomaly threshold is 0, every window
value is 0, the mock forecast is exactly 0 for every noise draw, the anomaly
flag is false and the severity is absent: the `deviation` division, guarded
by the anomaly flag, is never evaluated with a zero divisor, even though
`run_inference` has no dedicated `threshold == 0` guard. -/
theorem zero_threshold_unreachable_division (usage_data : List ℝ)
    (hv : ValidWindow usage_data) (ht : thresholdOf usage_data = 0) :
    (∀ x ∈ usage_data, x = 0)
    ∧ ∀ noise : ℝ,
        forecastVal usage_data noise = 0
        ∧ (runInference usage_data noise).anomaly_detected = false
        ∧ (runInference usage_data noise).anomaly_severity = none := by
  obtain ⟨hlen, hpos⟩ := hv
  have hz : ∀ x ∈ usage_data, x = 0 :=
    all_zero_of_threshold_zero (by omega) hpos ht
  refine ⟨hz, fun noise => ?_⟩
  have hf : forecastVal usage_data noise = 0 := forecastVal_zero_of_all_zero hz noise
  refine ⟨hf, ?_, ?_⟩ <;>
    simp [runInference, classifyAnomaly, hf, ht]

/-- C8 witness: the all-zero window of length 24 satisfies the hypotheses. -/
theorem zero_threshold_unreachable_division_witness :
    (∀ x ∈ List.replicate 24 (0 : ℝ), x = 0)
    ∧ ∀ noise : ℝ,
        forecastVal (List.replicate 24 (0 : ℝ)) noise = 0
        ∧ (runInference (List.replicate 24 (0 : ℝ)) noise).anomaly_detected = false
        ∧ (runInference (List.replicate 24 (0 : ℝ)) noise).anomaly_severity = none :=
  zero_threshold_unreachable_division _
    ⟨by simp, fun x hx => le_of_eq (List.eq_of_mem_replicate hx).symm⟩
    (thresholdOf_replicate (by norm_num) 0)

/-- C2 counterexample: there is no explicit `threshold == 0` guard in
`run_inference`.  On the all-zero window (threshold 0) the classifier applied
to the forecast value 5 sets the anomaly flag, contradicting the claim that a
zero threshold yields a non-anomalous result regardless of the forecast. -/
theorem zero_threshold_guard_cex :
    thresholdOf (List.replicate 24 (0 : ℝ)) = 0
    ∧ (classifyAnomaly (List.replicate 24 (0 : ℝ)) 5).1 = true := by
  have ht := thresholdOf_replicate (by norm_num : (24 : ℕ) ≠ 0) (0 : ℝ)
  refine ⟨ht, ?_⟩
  simp only [classifyAnomaly, ht]
  norm_num

/-- C2 (amended): on every valid window whose threshold is 0 the result the
code actually produces is non-anomalous (flag false, severity absent) — not
because of an explicit guard, but because the forecast is then necessarily 0
and fails the strict comparison, so the division is never reached. -/
theorem zero_threshold_nonanomalous (usage_data : List ℝ)
    (hv : ValidWindow usage_data) (ht : thresholdOf usage_data = 0) (noise : ℝ) :
    (runInference usage_data noise).anomaly_detected = false
    ∧ (runInference usage_data noise).anomaly_severity = none := by
  obtain ⟨hlen, hpos⟩ := hv
  have hz : ∀ x ∈ usage_data, x = 0 :=
    all_zero_of_threshold_zero (by omega) hpos ht
  have hf : forecastVal usage_data noise = 0 := forecastVal_zero_of_all_zero hz noise
  constructor <;> simp [runInference, classifyAnomaly, hf, ht]

/-- C2 witness: all-zero window of length 24, noise draw 1. -/
theorem zero_threshold_nonanomalous_witness :
    (runInference (List.replicate 24 (0 : ℝ)) 1).anomaly_detected = false
    ∧ (runInference (List.replicate 24 (0 : ℝ)) 1).anomaly_severity = none :=
  zero_threshold_nonanomalous _
    ⟨by simp, fun x hx => le_of_eq (List.eq_of_mem_replicate hx).symm⟩
    (thresholdOf_replicate (by norm_num) 0) 1

theorem roundR_mono (d : ℕ) {x y : ℝ} (h : x ≤ y) : roundR d x ≤ roundR d y := by
  unfold roundR
  have hp : (0 : ℝ) < 10 ^ d := by positivity
  have hr : round (x * 10 ^ d) ≤ round (y * 10 ^ d) := by
    rw [round_eq, round_eq]
    exact Int.floor_le_floor (by nlinarith)
  exact (div_le_div_iff_of_pos_right hp).mpr (by exact_mod_cast hr)

/-- C3: Scenario A.  On the window of 24 identical values 200.0 with the
injected noise fixed at 0, the mock path returns `predicted_usage = 200.0`
and `confidence_score = 0.98`, and the anomaly flag is false because the
unrounded forecast exactly equals the threshold without exceeding it. -/
theorem scenario_a_constant_window :
    (runInference (List.replicate 24 (200 : ℝ)) 0).predicted_usage = 200
    ∧ (runInference (List.replicate 24 (200 : ℝ)) 0).confidence_score = 0.98
    ∧ (runInference (List.replicate 24 (200 : ℝ)) 0).anomaly_detected = false
    ∧ forecastVal (List.replicate 24 (200 : ℝ)) 0 = thresholdOf (List.replicate 24 (200 : ℝ)) := by
  have hf : forecastVal (List.replicate 24 (200 : ℝ)) 0 = 200 := by
    rw [forecastVal_replicate]; norm_num
  have ht : thresholdOf (List.replicate 24 (200 : ℝ)) = 200 :=
    thresholdOf_replicate (by norm_num) 200
  have hc : confidenceVal (List.replicate 24 (200 : ℝ)) = 0.98 := confidenceVal_replicate 200
  have hr2 : roundR 2 (200 : ℝ) = 200 := by
    have h : (200 : ℝ) = ((20000 : ℤ) : ℝ) / 10 ^ 2 := by norm_num
    rw [h, roundR_int_div]
  have hr3 : roundR 3 (0.98 : ℝ) = 0.98 := by
    have h : (0.98 : ℝ) = ((980 : ℤ) : ℝ) / 10 ^ 3 := by norm_num
    rw [h, roundR_int_div]
  refine ⟨?_, ?_, ?_, hf.trans ht.symm⟩
  · show roundR 2 (forecastVal (List.replicate 24 (200 : ℝ)) 0) = 200
    rw [hf, hr2]
  · show roundR 3 (confidenceVal (List.replicate 24 (200 : ℝ))) = 0.98
    rw [hc, hr3]
  · show (classifyAnomaly (List.replicate 24 (200 : ℝ))
      (forecastVal (List.replicate 24 (200 : ℝ)) 0)).1 = false
    simp only [classifyAnomaly, hf, ht]
    norm_num

/-- C5: for every valid window and every noise draw, the returned confidence
score is the 3-decimal rounding of `clamp (1 - cv) [0.5, 0.98]` and lies in
`[0.5, 0.98]`: the clamp bounds are themselves fixed by the rounding, which
is monotone. -/
theorem confidence_bounded (usage_data : List ℝ) (noise : ℝ) (_hv : ValidWindow usage_data) :
    (runInference usage_data noise).confidence_score = roundR 3 (confidenceVal usage_data)
    ∧ 0.5 ≤ (runInference usage_data noise).confidence_score
    ∧ (runInference usage_data noise).confidence_score ≤ 0.98 := by
  have hlow : (0.5 : ℝ) ≤ confidenceVal usage_data := le_max_left _ _
  have hhigh : confidenceVal usage_data ≤ 0.98 :=
    max_le (by norm_num) (min_le_left _ _)
  have h05 : roundR 3 (0.5 : ℝ) = 0.5 := by
    have h : (0.5 : ℝ) = ((500 : ℤ) : ℝ) / 10 ^ 3 := by norm_num
    rw [h, roundR_int_div]
  have h098 : roundR 3 (0.98 : ℝ) = 0.98 := by
    have h : (0.98 : ℝ) = ((980 : ℤ) : ℝ) / 10 ^ 3 := by norm_num
    rw [h, roundR_int_div]
  refine ⟨rfl, ?_, ?_⟩
  · show (0.5 : ℝ) ≤ roundR 3 (confidenceVal usage_data)
    calc (0.5 : ℝ) = roundR 3 0.5 := h05.symm
      _ ≤ roundR 3 (confidenceVal usage_data) := roundR_mono 3 hlow
  · show roundR 3 (confidenceVal usage_data) ≤ 0.98
    calc roundR 3 (confidenceVal usage_data) ≤ roundR 3 0.98 := roundR_mono 3 hhigh
      _ = 0.98 := h098

/-- C5 witness: the constant window of 24 values 200 with noise 0. -/
theorem confidence_bounded_witness :
    (runInference (List.replicate 24 (200 : ℝ)) 0).confidence_score
        = roundR 3 (confidenceVal (List.replicate 24 (200 : ℝ)))
    ∧ 0.5 ≤ (runInference (List.replicate 24 (200 : ℝ)) 0).confidence_score
    ∧ (runInference (List.replicate 24 (200 : ℝ)) 0).confidence_score ≤ 0.98 :=
  confidence_bounded _ 0
    ⟨by simp, fun x hx => by rw [List.eq_of_mem_replicate hx]; norm_num⟩

/-- C6: for every valid window and noise draw, the severity is present iff
the anomaly flag is true; when absent the field is `none`, and when present
it is one of low, medium, high. -/
theorem severity_iff_anomaly (usage_data : List ℝ) (noise : ℝ) (_hv : ValidWindow usage_data) :
    ((runInference usage_data noise).anomaly_severity.isSome = true
      ↔ (runInference usage_data noise).anomaly_detected = true)
    ∧ ((runInference usage_data noise).anomaly_detected = false →
        (runInference usage_data noise).anomaly_severity = none)
    ∧ ((runInference usage_data noise).anomaly_detected = true →
        (runInference usage_data noise).anomaly_severity = some "low"
        ∨ (runInference usage_data noise).anomaly_severity = some "medium"
        ∨ (runInference usage_data noise).anomaly_severity = some "high") := by
  have hA : (runInference usage_data noise).anomaly_detected
      = (classifyAnomaly usage_data (forecastVal usage_data noise)).1 := rfl
  have hS : (runInference usage_data noise).anomaly_severity
      = (classifyAnomaly usage_data (forecastVal usage_data noise)).2 := rfl
  rw [hA, hS]
  cases hb : decide (forecastVal usage_data noise > thresholdOf usage_data) with
  | false =>
    refine ⟨?_, ?_, ?_⟩ <;> simp [classifyAnomaly, hb]
  | true =>
    refine ⟨?_, ?_, ?_⟩
    · simp [classifyAnomaly, hb]
    · simp [classifyAnomaly, hb]
    · intro _
      by_cases h1 : (forecastVal usage_data noise - thresholdOf usage_data)
          / thresholdOf usage_data < 0.1
      · left; simp [classifyAnomaly, hb, h1]
      · by_cases h2 : (forecastVal usage_data noise - thresholdOf usage_data)
            / thresholdOf usage_data < 0.25
        · right; left; simp [classifyAnomaly, hb, h1, h2]
        · right; right; simp [classifyAnomaly, hb, h1, h2]

/-- C6 witness: the constant window of 24 values 200 with noise 0. -/
theorem severity_iff_anomaly_witness :
    ((runInference (List.replicate 24 (200 : ℝ)) 0).anomaly_severity.isSome = true
      ↔ (runInference (List.replicate 24 (200 : ℝ)) 0).anomaly_detected = true)
    ∧ ((runInference (List.replicate 24 (200 : ℝ)) 0).anomaly_detected = false →
        (runInference (List.replicate 24 (200 : ℝ)) 0).anomaly_severity = none)
    ∧ ((runInference (List.replicate 24 (200 : ℝ)) 0).anomaly_detected = true →
        (runInference (List.replicate 24 (200 : ℝ)) 0).anomaly_severity = some "low"
        ∨ (runInference (List.replicate 24 (200 : ℝ)) 0).anomaly_severity = some "medium"
        ∨ (runInference (List.replicate 24 (200 : ℝ)) 0).anomaly_severity = some "high") :=
  severity_iff_anomaly _ 0
    ⟨by simp, fun x hx => by rw [List.eq_of_mem_replicate hx]; norm_num⟩

/-- C9: the anomaly flag is computed from the unrounded forecast while the
returned `predicted_usage` is rounded to 2 decimals, so there is a valid
window and an in-range noise draw for which the response is flagged anomalous
although its reported `predicted_usage` does not exceed the threshold:
the constant window 24 × 100 with noise `1/100000` forecasts `100.001`,
which is flagged, yet rounds down to `100.00 = threshold`. -/
theorem anomaly_flag_from_unrounded :
    ∃ (usage_data : List ℝ) (noise : ℝ),
      ValidWindow usage_data
      ∧ -0.03 ≤ noise ∧ noise ≤ 0.03
      ∧ (runInference usage_data noise).anomaly_detected = true
      ∧ (runInference usage_data noise).predicted_usage ≤ thresholdOf usage_data := by
  refine ⟨List.replicate 24 100, 1 / 100000,
    ⟨by simp, fun x hx => by rw [List.eq_of_mem_replicate hx]; norm_num⟩,
    by norm_num, by norm_num, ?_, ?_⟩
  all_goals
    have hf : forecastVal (List.replicate 24 (100 : ℝ)) (1 / 100000) = 100001 / 1000 := by
      rw [forecastVal_replicate]; norm_num
    have ht : thresholdOf (List.replicate 24 (100 : ℝ)) = 100 :=
      thresholdOf_replicate (by norm_num) 100
  · show (classifyAnomaly (List.replicate 24 (100 : ℝ))
      (forecastVal (List.replicate 24 (100 : ℝ)) (1 / 100000))).1 = true
    simp only [classifyAnomaly, hf, ht]
    norm_num
  · show roundR 2 (forecastVal (List.replicate 24 (100 : ℝ)) (1 / 100000))
      ≤ thresholdOf (List.replicate 24 (100 : ℝ))
    rw [hf, ht]
    have hround : round ((100001 : ℝ) / 1000 * 10 ^ 2) = 10000 := by
      norm_num [round_eq]
    unfold roundR
    rw [hround]
    norm_num

/-! Batch endpoint `predict_batch` (src/backend/main.py:367-397).  The loop
body runs `run_inference` on each sensor inside `try`, appends the result on
success and `continue`s (logging and excluding the item) on any exception.
The fallible per-item inference is abstracted as `infer : ι → Option ρ`:
`none` models a raised runtime exception caught by the `except` branch. -/

def predictBatchLoop {ι ρ : Type} (infer : ι → Option ρ) : List ι → List ρ
  | [] => []
  | sensor_request :: rest =>
    match infer sensor_request with
    | some result => result :: predictBatchLoop infer rest
    | none => predictBatchLoop infer rest

/-- The endpoint around the loop: a single engine-availability check before
iterating (`model_state.is_loaded`); `Except.error 503` models the
`HTTPException(503)` raised when the model is not loaded. -/
def predictBatchEndpoint {ι ρ : Type} (model_loaded : Bool) (infer : ι → Option ρ)
    (sensors : List ι) : Except ℕ (List ρ) :=
  if model_loaded then Except.ok (predictBatchLoop infer sensors) else Except.error 503

/-- C4: the batch loop processes items in input order; an item whose
inference faults is excluded without aborting the remaining ones, so the
output is exactly the successful results in input order (`filterMap`), a
faulting item in the middle leaves the results of the surrounding items
untouched, and the scenario `[A, B, C]` with only `B` faulting yields
`[A, C]`'s results in that relative order. -/
theorem predict_batch_fault_isolation {ι ρ : Type} (infer : ι → Option ρ) :
    (∀ items : List ι, predictBatchLoop infer items = items.filterMap infer)
    ∧ (∀ (xs ys : List ι) (b : ι), infer b = none →
        predictBatchLoop infer (xs ++ b :: ys)
          = predictBatchLoop infer xs ++ predictBatchLoop infer ys)
    ∧ (∀ (A B C : ι) (ra rc : ρ), infer A = some ra → infer B = none → infer C = some rc →
        predictBatchLoop infer [A, B, C] = [ra, rc]) := by
  have hfm : ∀ items : List ι, predictBatchLoop infer items = items.filterMap infer := by
    intro items
    induction items with
    | nil => rfl
    | cons a t ih =>
      rw [List.filterMap_cons]
      cases h : infer a <;> simp [predictBatchLoop, h, ih]
  refine ⟨hfm, ?_, ?_⟩
  · intro xs ys b hb
    rw [hfm, hfm, hfm, List.filterMap_append, List.filterMap_cons, hb]
  · intro A B C ra rc hA hB hC
    rw [hfm]
    simp [List.filterMap_cons, hA, hB, hC]

/-- C10: with the engine available, batch prediction on an empty sensors list
succeeds with the empty result list: the loop body never runs. -/
theorem predict_batch_empty {ι ρ : Type} (infer : ι → Option ρ) :
    predictBatchEndpoint true infer ([] : List ι) = Except.ok ([] : List ρ) := rfl

/-! WebSocket hub `ConnectionManager.broadcast` (src/backend/main.py:121-132).
The method iterates once over `active_connections`, collects into
`disconnected` every connection whose `send_json` raised, and afterwards
discards exactly those from the set.  The registry is a `Finset σ` and the
success of one push attempt per subscriber is the oracle `push : σ → Bool`;
no connection is pushed twice and none is added during a broadcast. -/

def broadcastSurvivors {σ : Type} [DecidableEq σ] (push : σ → Bool) (conns : Finset σ) :
    Finset σ :=
  let disconnected := conns.filter (fun c => push c = false)
  conns \ disconnected

/-- C7: after a broadcast the registry equals the previous registry minus
exactly the subscribers whose push failed: every subscriber whose push
succeeded remains, every registered subscriber whose push failed is removed,
and no subscriber is added. -/
theorem broadcast_prunes_failed {σ : Type} [DecidableEq σ] (push : σ → Bool)
    (conns : Finset σ) :
    broadcastSurvivors push conns = conns.filter (fun c => push c = true)
    ∧ (∀ c ∈ conns, push c = true → c ∈ broadcastSurvivors push conns)
    ∧ (∀ c ∈ conns, push c = false → c ∉ broadcastSurvivors push conns)
    ∧ broadcastSurvivors push conns ⊆ conns := by
  have hmem : ∀ c, c ∈ broadcastSurvivors push conns ↔ c ∈ conns ∧ push c = true := by
    intro c
    simp only [broadcastSurvivors, Finset.mem_sdiff, Finset.mem_filter]
    constructor
    · rintro ⟨hc, hnd⟩
      rcases Bool.eq_false_or_eq_true (push c) with ht | hf
      · exact ⟨hc, ht⟩
      · exact absurd ⟨hc, hf⟩ hnd
    · rintro ⟨hc, ht⟩
      exact ⟨hc, fun h => by simp [ht] at h⟩
  refine ⟨?_, ?_, ?_, ?_⟩
  · ext c
    rw [hmem, Finset.mem_filter]
  · exact fun c hc ht => (hmem c).mpr ⟨hc, ht⟩
  · intro c _ hf hmem'
    have := (hmem c).mp hmem'
    simp [hf] at this
  · exact fun c hc => ((hmem c).mp hc).1

end EnerPulse
